import Mathlib

/-!
Shallow embedding of the acquisition scheduler of the Sentinel-2 service
(file `satellite_data_service/copernicus.py`, with its callers in
`satellite_data_service/main.py`).

The registry (`RequestScheduler.schedule`, a pandas DataFrame indexed by `id`
with columns `state`, `last_query`, `title`) is modelled as an association
list from id to record.  The `schedule` library state is modelled explicitly:
`active_requests` is the id-to-job dictionary of the scheduler and `lib_jobs`
the set of timers registered in the library, with `next_job` a fresh-handle
counter.  The remote provider (`sentinelsat.SentinelAPI`) is modelled by the
classified outcome of each of its calls: `get_product_odata` either resolves a
title or raises `InvalidKeyError`; `download` either succeeds or raises one of
`LTATriggered`, `LTAError`, `ServerError(msg)`, `InvalidChecksumError`.
The data directory is modelled as the list of entry names it contains.
Python exceptions are modelled with `Except`.
-/

/-- The `QueryStates` enumeration from `aimlsse_api.data` (external interface;
members as listed in the spec). -/
inductive QueryStates where
  | NEW
  | PENDING
  | INCOMPLETE
  | AVAILABLE
  | UNAVAILABLE
  | INVALID
  | PROCESSED
deriving DecidableEq, Repr

/-- One row of the schedule DataFrame: columns `state`, `last_query`, `title`,
indexed by `id`. -/
structure Record where
  state : QueryStates
  last_query : Option Nat
  title : String
deriving DecidableEq, Repr

/-- The schedule DataFrame: one row per id. -/
abbrev Registry : Type := List (String × Record)

/-- The `copernicus` section of `config.yml`. -/
structure Config where
  data_dir : String
  schedule_filepath : String
deriving DecidableEq, Repr

/-- The mutable state of the `RequestScheduler` instance together with the
state of the `schedule` library: `schedule` is the registry DataFrame,
`active_requests` the id-to-job dict, `lib_jobs` the jobs currently
registered in the `schedule` library, `next_job` a fresh job handle. -/
structure SchedulerState where
  data_dir : String
  schedule_filepath : String
  schedule : Registry
  active_requests : List (String × Nat)
  lib_jobs : List Nat
  next_job : Nat
deriving DecidableEq, Repr

/-- Python exceptions raised by the scheduler code. -/
inductive PyError where
  | valueErrorNoRequest
  | valueErrorInvalidState
  | attributeError
  | typeError
  | fileNotFoundError
deriving DecidableEq, Repr

/-- Outcome of `SentinelAPI.get_product_odata(id)`: metadata with a title, or
`InvalidKeyError` when the id does not exist online. -/
inductive MetadataOutcome where
  | found (title : String)
  | invalidKey
deriving DecidableEq, Repr

/-- Classified outcome of `SentinelAPI.download(id, directory_path)`. -/
inductive DownloadOutcome where
  | success
  | ltaTriggered
  | ltaError
  | serverError (msg : String)
  | invalidChecksum
deriving DecidableEq, Repr

/-- Behaviour of the provider for one attempt: result of the metadata lookup
and of the download call. -/
structure ApiBehavior where
  metadata : MetadataOutcome
  download : DownloadOutcome
deriving DecidableEq, Repr

/-- Python `str.startswith`, on the character lists of the strings. -/
def strStarts (s pre : String) : Bool :=
  pre.data.isPrefixOf s.data

/-- Python `str.endswith`, on the character lists of the strings. -/
def strEnds (s suf : String) : Bool :=
  suf.data.isSuffixOf s.data

/-- Python substring containment `needle in hay`, on character lists. -/
def listContainsSub (needle hay : List Char) : Bool :=
  match hay with
  | [] => needle.isEmpty
  | _ :: t => needle.isPrefixOf hay || listContainsSub needle t

/-- Python substring containment test for strings. -/
def strContains (hay needle : String) : Bool :=
  listContainsSub needle.data hay.data

/-- `os.remove`: delete the entry with the given name from the directory
listing (directory entries are unique, so filtering is removal). -/
def fsRemove (fs : List String) (name : String) : List String :=
  fs.filter (fun x => !(x == name))

/-- `RequestScheduler.__get_request`: `schedule.loc[id]`, `None` on
`KeyError`. -/
def getRequest (reg : Registry) (id : String) : Option Record :=
  (List.find? (fun p => p.1 == id) reg).map (fun p => p.2)

/-- Write one field of the row of `id` (`schedule.loc[id][col] = v`). -/
def updateRecord (reg : Registry) (id : String) (f : Record → Record) : Registry :=
  List.map (fun p => if p.1 == id then (p.1, f p.2) else p) reg

/-- `schedule.loc[id].state = st`. -/
def updateState (reg : Registry) (id : String) (st : QueryStates) : Registry :=
  updateRecord reg id (fun r => { r with state := st })

/-- `schedule.loc[id].last_query = t`. -/
def updateLastQuery (reg : Registry) (id : String) (t : Option Nat) : Registry :=
  updateRecord reg id (fun r => { r with last_query := t })

/-- Drop the row of `id` from the registry. -/
def removeRecord (reg : Registry) (id : String) : Registry :=
  List.filter (fun p => !(p.1 == id)) reg

/-- Python `id in self.active_requests`. -/
def hasJob (s : SchedulerState) (id : String) : Bool :=
  s.active_requests.any (fun p => p.1 == id)

/-- Python `self.active_requests[id]`, as an option. -/
def lookupJob (jobs : List (String × Nat)) (id : String) : Option Nat :=
  (List.find? (fun p => p.1 == id) jobs).map (fun p => p.2)

/-- Python `self.active_requests.pop(id)` (the mapping after removal). -/
def eraseJob (jobs : List (String × Nat)) (id : String) : List (String × Nat) :=
  jobs.filter (fun p => !(p.1 == id))

/-- `schedule.every(30).minutes.do(...)` followed by
`self.active_requests[id] = job`: register a fresh recurring job for `id`. -/
def registerJob (s : SchedulerState) (id : String) : SchedulerState :=
  { s with
    active_requests := (id, s.next_job) :: s.active_requests
    lib_jobs := s.next_job :: s.lib_jobs
    next_job := s.next_job + 1 }

/-- `RequestScheduler.__should_download`. -/
def should_download (state : QueryStates) : Bool :=
  state == QueryStates.NEW || state == QueryStates.PENDING ||
    state == QueryStates.INCOMPLETE

/-- `RequestScheduler.__check_available`: list the entries of the data
directory whose name starts with the title of the record; any `.zip` or
`.SAFE` entry means `AVAILABLE`, else any `.incomplete` entry means
`INCOMPLETE`, else the stored state is kept. -/
def check_available (s : SchedulerState) (fs : List String) (id : String) :
    Except PyError QueryStates :=
  match getRequest s.schedule id with
  | none => Except.error PyError.valueErrorNoRequest
  | some r =>
    let files := fs.filter (fun x => strStarts x r.title)
    if files.any (fun x => strEnds x ".zip" || strEnds x ".SAFE") then
      Except.ok QueryStates.AVAILABLE
    else if files.any (fun x => strEnds x ".incomplete") then
      Except.ok QueryStates.INCOMPLETE
    else
      Except.ok r.state

/-- `RequestScheduler.__try_download_sentinel_data`: mark the record
`INCOMPLETE`, invoke the provider download and classify its outcome, then
stamp `last_query`.  When the record does not exist, the debug statement
dereferences `request.index` on `None` (AttributeError). -/
def try_download_sentinel_data (s : SchedulerState) (fs : List String)
    (id : String) (o : DownloadOutcome) (now : Nat) :
    Except PyError (SchedulerState × List String) :=
  match getRequest s.schedule id with
  | none => Except.error PyError.attributeError
  | some r =>
    let old_state := r.state
    let s1 : SchedulerState :=
      { s with schedule := updateState s.schedule id QueryStates.INCOMPLETE }
    let step : Except PyError (SchedulerState × List String) :=
      match o with
      | DownloadOutcome.success =>
        let s2 : SchedulerState :=
          { s1 with schedule := updateState s1.schedule id QueryStates.AVAILABLE }
        let s3 : SchedulerState :=
          match lookupJob s2.active_requests id with
          | some j =>
            { s2 with
              active_requests := eraseJob s2.active_requests id
              lib_jobs := s2.lib_jobs.erase j }
          | none => s2
        Except.ok (s3, fs)
      | DownloadOutcome.ltaTriggered =>
        Except.ok
          ({ s1 with schedule := updateState s1.schedule id QueryStates.PENDING }, fs)
      | DownloadOutcome.ltaError =>
        Except.ok
          ({ s1 with schedule := updateState s1.schedule id QueryStates.UNAVAILABLE }, fs)
      | DownloadOutcome.serverError msg =>
        if strContains msg "NullPointerException" then
          Except.ok
            ({ s1 with schedule := updateState s1.schedule id QueryStates.UNAVAILABLE }, fs)
        else
          Except.ok ({ s1 with schedule := updateState s1.schedule id old_state }, fs)
      | DownloadOutcome.invalidChecksum =>
        let s2 : SchedulerState :=
          { s1 with schedule := updateState s1.schedule id old_state }
        match getRequest s2.schedule id with
        | none => Except.error PyError.typeError
        | some r2 =>
          let fzip := r2.title ++ ".zip"
          if fs.contains fzip then
            Except.ok (s2, fsRemove fs fzip)
          else
            Except.ok
              ({ s2 with schedule := updateState s2.schedule id QueryStates.UNAVAILABLE }, fs)
    match step with
    | Except.error e => Except.error e
    | Except.ok (sE, fsE) =>
      Except.ok
        ({ sE with schedule := updateLastQuery sE.schedule id (some now) }, fsE)

/-- `RequestScheduler.__try_download_with_local_checks`: probe local storage,
adopt the probed state, stop without provider contact when the state is not
retry-eligible (where `self.active_requests.remove(id)` is attempted on the
dict, which has no such method), otherwise download and re-probe.  Returns
`none` for the bare Python `return` and `some b` for the final boolean. -/
def try_download_with_local_checks (s : SchedulerState) (fs : List String)
    (id : String) (o : DownloadOutcome) (now : Nat) :
    Except PyError (Option Bool × SchedulerState × List String) :=
  match getRequest s.schedule id with
  | none => Except.error PyError.valueErrorNoRequest
  | some _ =>
    match check_available s fs id with
    | Except.error e => Except.error e
    | Except.ok checked =>
      let s1 : SchedulerState :=
        { s with schedule := updateState s.schedule id checked }
      if !(should_download checked) then
        if hasJob s1 id then
          Except.error PyError.attributeError
        else
          Except.ok (none, s1, fs)
      else
        match try_download_sentinel_data s1 fs id o now with
        | Except.error e => Except.error e
        | Except.ok (s2, fs2) =>
          match check_available s2 fs2 id with
          | Except.error e => Except.error e
          | Except.ok checked2 =>
            Except.ok (some (checked2 == QueryStates.AVAILABLE), s2, fs2)

/-- Lines 92 to 104 of `RequestScheduler.request`: re-read the record, attempt
an immediate download when no job is active and the state is retry-eligible,
schedule a recurring job when the attempt does not report available, and
return the resulting state. -/
def request_download_phase (s : SchedulerState) (fs : List String) (id : String)
    (api : ApiBehavior) (now : Nat) :
    Except PyError (QueryStates × SchedulerState × List String) :=
  match getRequest s.schedule id with
  | none => Except.error PyError.typeError
  | some r =>
    if !(hasJob s id) && should_download r.state then
      match try_download_with_local_checks s fs id api.download now with
      | Except.error e => Except.error e
      | Except.ok (res, s2, fs2) =>
        let s3 : SchedulerState :=
          match res with
          | some true => s2
          | _ => registerJob s2 id
        match getRequest s3.schedule id with
        | none => Except.error PyError.typeError
        | some r2 => Except.ok (r2.state, s3, fs2)
    else
      Except.ok (r.state, s, fs)

/-- `RequestScheduler.request`: resolve or create the registry record (a
missing id at the provider returns `INVALID` and creates nothing), then run
the download phase. -/
def request (s : SchedulerState) (fs : List String) (id : String)
    (api : ApiBehavior) (now : Nat) :
    Except PyError (QueryStates × SchedulerState × List String) :=
  match getRequest s.schedule id with
  | none =>
    match api.metadata with
    | MetadataOutcome.invalidKey => Except.ok (QueryStates.INVALID, s, fs)
    | MetadataOutcome.found title =>
      let s1 : SchedulerState :=
        { s with
          schedule := s.schedule ++ [(id, { state := QueryStates.NEW, last_query := none, title := title })] }
      request_download_phase s1 fs id api now
  | some _ => request_download_phase s fs id api now

/-- `RequestScheduler.__assert_request_available`: ValueError unless a record
exists and its state is exactly `AVAILABLE`. -/
def assert_request_available (s : SchedulerState) (id : String) :
    Except PyError Unit :=
  match getRequest s.schedule id with
  | none => Except.error PyError.valueErrorNoRequest
  | some r =>
    if r.state == QueryStates.AVAILABLE then Except.ok ()
    else Except.error PyError.valueErrorInvalidState

/-- `RequestScheduler.__unzip_product`: extract the title-named zip to the
`.SAFE` directory unless that directory already exists, removing the zip. -/
def unzip_product (s : SchedulerState) (fs : List String) (id : String) :
    Except PyError (String × List String) :=
  match getRequest s.schedule id with
  | none => Except.error PyError.typeError
  | some r =>
    let fzip := r.title ++ ".zip"
    let fsafe := r.title ++ ".SAFE"
    if fs.contains fsafe then
      Except.ok (fsafe, fs)
    else if fs.contains fzip then
      Except.ok (fsafe, fsRemove (fsafe :: fs) fzip)
    else
      Except.error PyError.fileNotFoundError

/-- `RequestScheduler.process_data_for_request`: gate on `AVAILABLE`, unzip,
then hand the product directory to the external image processor. -/
def process_data_for_request (s : SchedulerState) (fs : List String)
    (id : String) (processor : String → String) :
    Except PyError (String × List String) :=
  match assert_request_available s id with
  | Except.error e => Except.error e
  | Except.ok _ =>
    match unzip_product s fs id with
    | Except.error e => Except.error e
    | Except.ok (dir, fs2) => Except.ok (processor dir, fs2)

/-- `RequestScheduler.get_raw_product`: gate on `AVAILABLE`, then return the
path of the title-named zip. -/
def get_raw_product (s : SchedulerState) (id : String) :
    Except PyError String :=
  match assert_request_available s id with
  | Except.error e => Except.error e
  | Except.ok _ =>
    match getRequest s.schedule id with
    | none => Except.error PyError.typeError
    | some r => Except.ok (r.title ++ ".zip")

/-- Modelled from the spec: `RequestScheduler.remove_request` is invoked from
`main.py` (`extractFeatures` runs it as a background task after the response)
but its definition is absent from `copernicus.py` in this snapshot.  Spec:
"deletes the local artifact (if present) and the registry record". -/
def remove_request (s : SchedulerState) (fs : List String) (id : String) :
    SchedulerState × List String :=
  match getRequest s.schedule id with
  | none => ({ s with schedule := removeRecord s.schedule id }, fs)
  | some r =>
    ({ s with schedule := removeRecord s.schedule id },
      fsRemove fs (r.title ++ ".zip"))

/-- Lines 41 to 45 of `RequestScheduler.__init__`: read the schedule file
wholesale when it exists, else an empty table with columns `state`,
`last_query`, `title` and index `id`. -/
def init_schedule (file : Option Registry) : Registry :=
  match file with
  | some rows => rows
  | none => []

/-- The instance state built by a first `RequestScheduler.__init__`. -/
def initial_scheduler_state (cfg : Config) (file : Option Registry) :
    SchedulerState :=
  { data_dir := cfg.data_dir
    schedule_filepath := cfg.schedule_filepath
    schedule := init_schedule file
    active_requests := []
    lib_jobs := []
    next_job := 0 }

/-- The class-level state of `RequestScheduler`: the singleton slot
`cls.instance` (an allocation token), the `cls.initialized` flag, the
attributes of the instance, and a fresh-allocation counter. -/
structure ClassState where
  instAlloc : Option Nat
  initDone : Bool
  inst : Option SchedulerState
  next_alloc : Nat
deriving DecidableEq, Repr

/-- `RequestScheduler.__new__`: allocate and remember the singleton on first
call (clearing the flag), return the remembered instance afterwards. -/
def requestSchedulerNew (c : ClassState) : Nat × ClassState :=
  match c.instAlloc with
  | some a => (a, c)
  | none =>
    (c.next_alloc,
      { c with
        instAlloc := some c.next_alloc
        initDone := false
        next_alloc := c.next_alloc + 1 })

/-- `RequestScheduler.__init__`: skip when already initialized, else build the
instance state from the configuration and the schedule file and set the
flag. -/
def requestSchedulerInit (c : ClassState) (cfg : Config)
    (file : Option Registry) : ClassState :=
  if c.initDone then c
  else
    { c with
      inst := some (initial_scheduler_state cfg file)
      initDone := true }

/-- `RequestScheduler()`: `__new__` followed by `__init__`. -/
def requestSchedulerConstruct (c : ClassState) (cfg : Config)
    (file : Option Registry) : Nat × ClassState :=
  let p := requestSchedulerNew c
  (p.1, requestSchedulerInit p.2 cfg file)

/-- Record of `id` after an attempt (`none` when the attempt raised). -/
def attemptRecord (s : SchedulerState) (fs : List String) (id : String)
    (o : DownloadOutcome) (now : Nat) : Option Record :=
  match try_download_sentinel_data s fs id o now with
  | Except.ok (s2, _) => getRequest s2.schedule id
  | Except.error _ => none

/-- Job bookkeeping after an attempt (`none` when the attempt raised). -/
def attemptJobs (s : SchedulerState) (fs : List String) (id : String)
    (o : DownloadOutcome) (now : Nat) :
    Option (List (String × Nat) × List Nat) :=
  match try_download_sentinel_data s fs id o now with
  | Except.ok (s2, _) => some (s2.active_requests, s2.lib_jobs)
  | Except.error _ => none

/-- Data directory after an attempt (`none` when the attempt raised). -/
def attemptFiles (s : SchedulerState) (fs : List String) (id : String)
    (o : DownloadOutcome) (now : Nat) : Option (List String) :=
  match try_download_sentinel_data s fs id o now with
  | Except.ok (_, fs2) => some fs2
  | Except.error _ => none

/-! ### Helper lemmas about the registry and the directory model -/

theorem getRequest_updateRecord (reg : Registry) (id : String)
    (f : Record → Record) :
    getRequest (updateRecord reg id f) id = (getRequest reg id).map f := by
  induction reg with
  | nil => rfl
  | cons p t ih =>
    cases hp : (p.1 == id) with
    | true => simp [getRequest, updateRecord, List.find?, hp]
    | false => simpa [getRequest, updateRecord, List.find?, hp] using ih

theorem getRequest_append_none (reg : Registry) (id : String) (r : Record)
    (h : getRequest reg id = none) :
    getRequest (reg ++ [(id, r)]) id = some r := by
  induction reg with
  | nil => simp [getRequest, List.find?]
  | cons p t ih =>
    by_cases hp : p.1 == id
    · simp [getRequest, List.find?, hp] at h
    · simp only [getRequest, List.find?, hp, List.cons_append] at h ⊢
      exact ih h

theorem getRequest_removeRecord (reg : Registry) (id : String) :
    getRequest (removeRecord reg id) id = none := by
  induction reg with
  | nil => rfl
  | cons p t ih =>
    by_cases hp : p.1 == id
    · simpa [removeRecord, List.filter, hp] using ih
    · simp only [removeRecord, List.filter, hp] at ih ⊢
      simp [getRequest, List.find?, hp, ih]

theorem notMem_fsRemove (fs : List String) (name : String) :
    name ∉ fsRemove fs name := by
  intro h
  have := List.of_mem_filter h
  simp at this

/-! ### Claim theorems -/

/-- C1: for every id with an existing registry record, the download attempt
classifies the provider outcome exactly as: success sets the state to
`AVAILABLE` and cancels and removes the active polling job for that id;
archive staging triggered sets the state to `PENDING` with the job left
active; staging refused sets the state to `UNAVAILABLE`; a transient server
error reverts the state to the state held immediately before the attempt,
except that an error detail containing the marker `NullPointerException`
forces `UNAVAILABLE`. -/
theorem download_attempt_classification (s : SchedulerState) (fs : List String)
    (id : String) (now : Nat) (r : Record)
    (h : getRequest s.schedule id = some r) :
    attemptRecord s fs id DownloadOutcome.success now =
        some { state := QueryStates.AVAILABLE, last_query := some now, title := r.title } ∧
    attemptJobs s fs id DownloadOutcome.success now =
        some (match lookupJob s.active_requests id with
          | some j => (eraseJob s.active_requests id, s.lib_jobs.erase j)
          | none => (s.active_requests, s.lib_jobs)) ∧
    attemptRecord s fs id DownloadOutcome.ltaTriggered now =
        some { state := QueryStates.PENDING, last_query := some now, title := r.title } ∧
    attemptJobs s fs id DownloadOutcome.ltaTriggered now =
        some (s.active_requests, s.lib_jobs) ∧
    attemptRecord s fs id DownloadOutcome.ltaError now =
        some { state := QueryStates.UNAVAILABLE, last_query := some now, title := r.title } ∧
    attemptJobs s fs id DownloadOutcome.ltaError now =
        some (s.active_requests, s.lib_jobs) ∧
    (∀ msg, attemptRecord s fs id (DownloadOutcome.serverError msg) now =
        some { state :=
                 if strContains msg "NullPointerException" then QueryStates.UNAVAILABLE
                 else r.state
               last_query := some now, title := r.title }) ∧
    (∀ msg, attemptJobs s fs id (DownloadOutcome.serverError msg) now =
        some (s.active_requests, s.lib_jobs)) := by
  refine ⟨?_, ?_, ?_, ?_, ?_, ?_, ?_, ?_⟩
  · simp [attemptRecord, try_download_sentinel_data, h, updateState, updateLastQuery,
      getRequest_updateRecord]
    cases hj : lookupJob s.active_requests id <;>
      simp [hj, updateState, updateLastQuery, getRequest_updateRecord, h]
  · simp [attemptJobs, try_download_sentinel_data, h]
    cases hj : lookupJob s.active_requests id <;> simp [hj]
  · simp [attemptRecord, try_download_sentinel_data, h, updateState, updateLastQuery,
      getRequest_updateRecord]
  · simp [attemptJobs, try_download_sentinel_data, h]
  · simp [attemptRecord, try_download_sentinel_data, h, updateState, updateLastQuery,
      getRequest_updateRecord]
  · simp [attemptJobs, try_download_sentinel_data, h]
  · intro msg
    by_cases hc : strContains msg "NullPointerException" = true
    · simp [attemptRecord, try_download_sentinel_data, h, hc, updateState, updateLastQuery,
        getRequest_updateRecord]
    · simp [attemptRecord, try_download_sentinel_data, h, hc, updateState, updateLastQuery,
        getRequest_updateRecord]
  · intro msg
    by_cases hc : strContains msg "NullPointerException" = true
    · simp [attemptJobs, try_download_sentinel_data, h, hc]
    · simp [attemptJobs, try_download_sentinel_data, h, hc]

/-- Concrete scheduler state for evaluating C1: one record `P1` in state
`NEW` with an active polling job. -/
def W1state : SchedulerState :=
  { data_dir := "data"
    schedule_filepath := "persist/schedule.csv"
    schedule := [("P1", { state := QueryStates.NEW, last_query := none, title := "T1" })]
    active_requests := [("P1", 0)]
    lib_jobs := [0]
    next_job := 1 }

/-- Witness for C1: the classification theorem applied to the concrete state
`W1state`, evaluating the success clause and the non-recoverable server-error
clause. -/
theorem download_attempt_classification_witness :
    getRequest W1state.schedule "P1" =
      some { state := QueryStates.NEW, last_query := none, title := "T1" } ∧
    attemptRecord W1state [] "P1" DownloadOutcome.success 5 =
      some { state := QueryStates.AVAILABLE, last_query := some 5, title := "T1" } ∧
    attemptJobs W1state [] "P1" DownloadOutcome.success 5 = some ([], []) ∧
    attemptRecord W1state [] "P1" (DownloadOutcome.serverError "NullPointerException") 5 =
      some { state := QueryStates.UNAVAILABLE, last_query := some 5, title := "T1" } := by
  have h := download_attempt_classification W1state [] "P1" 5
    { state := QueryStates.NEW, last_query := none, title := "T1" } rfl
  refine ⟨rfl, h.1, ?_, ?_⟩
  · have h2 := h.2.1
    simpa [W1state, lookupJob, eraseJob] using h2
  · have h7 := h.2.2.2.2.2.2.1 "NullPointerException"
    have hc : strContains "NullPointerException" "NullPointerException" = true := rfl
    simpa [hc] using h7

/-- Concrete scheduler state for C2: record `P2` is `PENDING`, its polling
job is active, and the qualifying artifact `T2.zip` is present locally. -/
def C2state : SchedulerState :=
  { data_dir := "data"
    schedule_filepath := "persist/schedule.csv"
    schedule := [("P2", { state := QueryStates.PENDING, last_query := none, title := "T2" })]
    active_requests := [("P2", 0)]
    lib_jobs := [0]
    next_job := 1 }

/-- C2 (code bug): with record `P2` in state `PENDING`, an active polling job
and a local `AVAILABLE`-qualifying artifact `T2.zip`, the attempt never
contacts the provider (any outcome gives the same result) but raises
`AttributeError` instead of cancelling and deregistering the job: the code
calls `self.active_requests.remove(id)` and a Python dict has no method
`remove`; `schedule.cancel_job` is never called. -/
theorem local_available_attempt_raises (o : DownloadOutcome) :
    try_download_with_local_checks C2state ["T2.zip"] "P2" o 3 =
      Except.error PyError.attributeError := rfl

/-- C3: for an id with no registry record whose provider metadata lookup
raises `InvalidKeyError`, `request` returns `INVALID` and leaves the whole
state (in particular the registry) unchanged, and any subsequent call for the
same id performs the metadata lookup again and behaves identically. -/
theorem request_unknown_invalid (s : SchedulerState) (fs : List String)
    (id : String) (api : ApiBehavior) (now : Nat)
    (hnone : getRequest s.schedule id = none)
    (hmeta : api.metadata = MetadataOutcome.invalidKey) :
    request s fs id api now = Except.ok (QueryStates.INVALID, s, fs) ∧
    (∀ (api2 : ApiBehavior) (now2 : Nat),
      api2.metadata = MetadataOutcome.invalidKey →
      request s fs id api2 now2 = Except.ok (QueryStates.INVALID, s, fs)) := by
  constructor
  · simp [request, hnone, hmeta]
  · intro api2 now2 hm2
    simp [request, hnone, hm2]

/-- Witness for C3: the empty registry with the unknown id `P4`. -/
theorem request_unknown_invalid_witness :
    getRequest ([] : Registry) "P4" = none ∧
    request (initial_scheduler_state { data_dir := "data", schedule_filepath := "p/s.csv" } none)
        [] "P4" { metadata := MetadataOutcome.invalidKey, download := DownloadOutcome.success } 1 =
      Except.ok (QueryStates.INVALID,
        initial_scheduler_state { data_dir := "data", schedule_filepath := "p/s.csv" } none, []) := by
  refine ⟨rfl, ?_⟩
  exact (request_unknown_invalid
    (initial_scheduler_state { data_dir := "data", schedule_filepath := "p/s.csv" } none)
    [] "P4" { metadata := MetadataOutcome.invalidKey, download := DownloadOutcome.success } 1
    rfl rfl).1

/-- C4: a download attempt ending in a checksum mismatch reverts the state to
the state held before the attempt and deletes the corrupted title-named zip
artifact when it exists on disk; when no such artifact is found the state is
forced to `UNAVAILABLE` instead; in either case the polling job bookkeeping
is untouched. -/
theorem checksum_mismatch_recovery (s : SchedulerState) (fs : List String)
    (id : String) (now : Nat) (r : Record)
    (h : getRequest s.schedule id = some r) :
    (fs.contains (r.title ++ ".zip") = true →
      attemptRecord s fs id DownloadOutcome.invalidChecksum now =
        some { state := r.state, last_query := some now, title := r.title } ∧
      attemptFiles s fs id DownloadOutcome.invalidChecksum now =
        some (fsRemove fs (r.title ++ ".zip"))) ∧
    (fs.contains (r.title ++ ".zip") = false →
      attemptRecord s fs id DownloadOutcome.invalidChecksum now =
        some { state := QueryStates.UNAVAILABLE, last_query := some now, title := r.title } ∧
      attemptFiles s fs id DownloadOutcome.invalidChecksum now = some fs) ∧
    attemptJobs s fs id DownloadOutcome.invalidChecksum now =
      some (s.active_requests, s.lib_jobs) := by
  refine ⟨?_, ?_, ?_⟩
  · intro hc
    have hm : (r.title ++ ".zip") ∈ fs := by simpa using hc
    constructor <;>
      simp [attemptRecord, attemptFiles, try_download_sentinel_data, h, hm,
        updateState, updateLastQuery, getRequest_updateRecord]
  · intro hc
    have hm : (r.title ++ ".zip") ∉ fs := by simpa using hc
    constructor <;>
      simp [attemptRecord, attemptFiles, try_download_sentinel_data, h, hm,
        updateState, updateLastQuery, getRequest_updateRecord]
  · by_cases hm : (r.title ++ ".zip") ∈ fs <;>
      simp [attemptJobs, try_download_sentinel_data, h, hm,
        updateState, updateLastQuery, getRequest_updateRecord]

/-- Concrete scheduler state for C4: record `P3` in state `INCOMPLETE` with an
active job and a stale partial artifact `T3.zip` on disk. -/
def W4state : SchedulerState :=
  { data_dir := "data"
    schedule_filepath := "persist/schedule.csv"
    schedule := [("P3", { state := QueryStates.INCOMPLETE, last_query := some 2, title := "T3" })]
    active_requests := [("P3", 0)]
    lib_jobs := [0]
    next_job := 1 }

/-- Witness for C4: checksum mismatch for `P3` with the stale artifact
present deletes the artifact, reverts the state to `INCOMPLETE` and keeps the
job bookkeeping. -/
theorem checksum_mismatch_recovery_witness :
    getRequest W4state.schedule "P3" =
      some { state := QueryStates.INCOMPLETE, last_query := some 2, title := "T3" } ∧
    attemptRecord W4state ["T3.zip"] "P3" DownloadOutcome.invalidChecksum 9 =
      some { state := QueryStates.INCOMPLETE, last_query := some 9, title := "T3" } ∧
    attemptFiles W4state ["T3.zip"] "P3" DownloadOutcome.invalidChecksum 9 = some [] ∧
    attemptJobs W4state ["T3.zip"] "P3" DownloadOutcome.invalidChecksum 9 =
      some ([("P3", 0)], [0]) := by
  have h := checksum_mismatch_recovery W4state ["T3.zip"] "P3" 9
    { state := QueryStates.INCOMPLETE, last_query := some 2, title := "T3" } rfl
  have h1 := h.1 rfl
  refine ⟨rfl, h1.1, ?_, ?_⟩
  · have := h1.2
    simpa [fsRemove] using this
  · simpa [W4state] using h.2.2

/-- C5: for every id that already has an active polling job, invoking
`request` again registers no second job and creates no duplicate timer: the
id-to-job mapping, the set of library timers and the fresh-handle counter are
all left unchanged. -/
theorem request_no_duplicate_job (s : SchedulerState) (fs : List String)
    (id : String) (api : ApiBehavior) (now : Nat)
    (h : hasJob s id = true) :
    ∃ st s2, request s fs id api now = Except.ok (st, s2, fs) ∧
      s2.active_requests = s.active_requests ∧
      s2.lib_jobs = s.lib_jobs ∧
      s2.next_job = s.next_job := by
  cases hg : getRequest s.schedule id with
  | some r =>
    refine ⟨r.state, s, ?_, rfl, rfl, rfl⟩
    simp [request, hg, request_download_phase, h]
  | none =>
    cases hm : api.metadata with
    | invalidKey =>
      exact ⟨QueryStates.INVALID, s, by simp [request, hg, hm], rfl, rfl, rfl⟩
    | found t =>
      refine ⟨QueryStates.NEW,
        { s with schedule :=
            s.schedule ++ [(id, { state := QueryStates.NEW, last_query := none, title := t })] },
        ?_, rfl, rfl, rfl⟩
      have hg2 := getRequest_append_none s.schedule id
        { state := QueryStates.NEW, last_query := none, title := t } hg
      simp [request, hg, hm, request_download_phase, hg2, hasJob] at h ⊢
      simp [h]

/-- Witness for C5: `P2` already has an active job in `C2state`; a renewed
`request` leaves the job mapping, the timers and the handle counter
unchanged. -/
theorem request_no_duplicate_job_witness :
    hasJob C2state "P2" = true ∧
    ∃ st s2, request C2state [] "P2"
        { metadata := MetadataOutcome.found "T2", download := DownloadOutcome.success } 4 =
        Except.ok (st, s2, []) ∧
      s2.active_requests = C2state.active_requests ∧
      s2.lib_jobs = C2state.lib_jobs ∧
      s2.next_job = C2state.next_job :=
  ⟨rfl, request_no_duplicate_job C2state [] "P2"
    { metadata := MetadataOutcome.found "T2", download := DownloadOutcome.success } 4 rfl⟩

/-- Helper for C6: when the download phase returns a state, the registry of
the returned scheduler state holds a record for the id with exactly that
state. -/
theorem request_download_phase_ok_state (s : SchedulerState) (fs : List String)
    (id : String) (api : ApiBehavior) (now : Nat) (st : QueryStates)
    (s1 : SchedulerState) (fs1 : List String)
    (h : request_download_phase s fs id api now = Except.ok (st, s1, fs1)) :
    ∃ r, getRequest s1.schedule id = some r ∧ r.state = st := by
  simp only [request_download_phase] at h
  split at h
  · exact absurd h (by simp)
  · rename_i r hg
    split at h
    · split at h
      · exact absurd h (by simp)
      · split at h
        · exact absurd h (by simp)
        · rename_i res s2 fs2 hres r2 hg2
          simp only [Except.ok.injEq, Prod.mk.injEq] at h
          obtain ⟨h1, h2, h3⟩ := h
          exact ⟨r2, h2 ▸ hg2, h1⟩
    · simp only [Except.ok.injEq, Prod.mk.injEq] at h
      obtain ⟨h1, h2, h3⟩ := h
      exact ⟨r, h2 ▸ hg, h1⟩

/-- C6: once a `request` call for an id has resolved to `AVAILABLE`, an
immediately following `request` for the same id (with any provider behaviour)
performs no download attempt, mutates nothing — in particular it adds no
duplicate registry row — and returns `AVAILABLE`. -/
theorem request_idempotent_available (s : SchedulerState) (fs : List String)
    (id : String) (api : ApiBehavior) (now : Nat)
    (s1 : SchedulerState) (fs1 : List String)
    (h : request s fs id api now = Except.ok (QueryStates.AVAILABLE, s1, fs1)) :
    ∀ (api2 : ApiBehavior) (now2 : Nat),
      request s1 fs1 id api2 now2 = Except.ok (QueryStates.AVAILABLE, s1, fs1) := by
  have hrec : ∃ r, getRequest s1.schedule id = some r ∧
      r.state = QueryStates.AVAILABLE := by
    simp only [request] at h
    split at h
    · split at h
      · simp at h
      · exact request_download_phase_ok_state _ _ _ _ _ _ _ _ h
    · exact request_download_phase_ok_state _ _ _ _ _ _ _ _ h
  obtain ⟨r, hg, hst⟩ := hrec
  intro api2 now2
  simp [request, hg, request_download_phase, hst,
    (show should_download QueryStates.AVAILABLE = false from rfl)]

/-- Concrete scheduler state for C6: record `P6` already `AVAILABLE`, no
active job. -/
def W6state : SchedulerState :=
  { data_dir := "data"
    schedule_filepath := "persist/schedule.csv"
    schedule := [("P6", { state := QueryStates.AVAILABLE, last_query := some 1, title := "T6" })]
    active_requests := []
    lib_jobs := []
    next_job := 0 }

/-- Witness for C6: a first call resolving to `AVAILABLE` followed by a second
call with a different provider behaviour. -/
theorem request_idempotent_available_witness :
    request W6state [] "P6"
        { metadata := MetadataOutcome.invalidKey, download := DownloadOutcome.success } 2 =
      Except.ok (QueryStates.AVAILABLE, W6state, []) ∧
    request W6state [] "P6"
        { metadata := MetadataOutcome.found "X", download := DownloadOutcome.ltaError } 3 =
      Except.ok (QueryStates.AVAILABLE, W6state, []) :=
  ⟨rfl, request_idempotent_available W6state [] "P6"
    { metadata := MetadataOutcome.invalidKey, download := DownloadOutcome.success } 2
    W6state [] rfl
    { metadata := MetadataOutcome.found "X", download := DownloadOutcome.ltaError } 3⟩

/-- C7: the operations handing a product to processing or returning the raw
artifact fail with the not-found error when no record exists, and fail with
the invalid-state error whenever the state of the record is anything other
than exactly `AVAILABLE`. -/
theorem availability_gate (s : SchedulerState) (fs : List String) (id : String)
    (processor : String → String) :
    (getRequest s.schedule id = none →
      assert_request_available s id = Except.error PyError.valueErrorNoRequest ∧
      process_data_for_request s fs id processor =
        Except.error PyError.valueErrorNoRequest ∧
      get_raw_product s id = Except.error PyError.valueErrorNoRequest) ∧
    (∀ r, getRequest s.schedule id = some r → r.state ≠ QueryStates.AVAILABLE →
      assert_request_available s id = Except.error PyError.valueErrorInvalidState ∧
      process_data_for_request s fs id processor =
        Except.error PyError.valueErrorInvalidState ∧
      get_raw_product s id = Except.error PyError.valueErrorInvalidState) := by
  constructor
  · intro hg
    simp [assert_request_available, process_data_for_request, get_raw_product, hg]
  · intro r hg hne
    simp [assert_request_available, process_data_for_request, get_raw_product, hg, hne]

/-- Concrete scheduler state for C7: record `P5` in state `NEW` (Scenario E). -/
def W7state : SchedulerState :=
  { data_dir := "data"
    schedule_filepath := "persist/schedule.csv"
    schedule := [("P5", { state := QueryStates.NEW, last_query := none, title := "T5" })]
    active_requests := []
    lib_jobs := []
    next_job := 0 }

/-- Witness for C7: processing `P5` while it is `NEW` fails with the
invalid-state error, and an id without a record fails with the not-found
error. -/
theorem availability_gate_witness :
    getRequest W7state.schedule "P5" =
      some { state := QueryStates.NEW, last_query := none, title := "T5" } ∧
    process_data_for_request W7state [] "P5" (fun d => d) =
      Except.error PyError.valueErrorInvalidState ∧
    process_data_for_request W7state [] "NOPE" (fun d => d) =
      Except.error PyError.valueErrorNoRequest := by
  refine ⟨rfl, ?_, ?_⟩
  · exact ((availability_gate W7state [] "P5" (fun d => d)).2
      { state := QueryStates.NEW, last_query := none, title := "T5" } rfl
      (by decide)).2.1
  · exact ((availability_gate W7state [] "NOPE" (fun d => d)).1 rfl).2.1

/-- C8 (the operation is modelled from the spec, see `remove_request`): for an
id with a registry record, `remove_request` deletes the title-named local
artifact and deletes the registry record for that id. -/
theorem remove_request_removes (s : SchedulerState) (fs : List String)
    (id : String) (r : Record)
    (h : getRequest s.schedule id = some r) :
    getRequest (remove_request s fs id).1.schedule id = none ∧
    (r.title ++ ".zip") ∉ (remove_request s fs id).2 := by
  constructor
  · simp [remove_request, h, getRequest_removeRecord]
  · simp only [remove_request, h]
    exact notMem_fsRemove fs (r.title ++ ".zip")

/-- Witness for C8: removing `P6` (consumed after processing) deletes the
record and the artifact `T6.zip`. -/
theorem remove_request_removes_witness :
    getRequest W6state.schedule "P6" =
      some { state := QueryStates.AVAILABLE, last_query := some 1, title := "T6" } ∧
    getRequest (remove_request W6state ["T6.zip", "other"] "P6").1.schedule "P6" = none ∧
    "T6.zip" ∉ (remove_request W6state ["T6.zip", "other"] "P6").2 := by
  have h := remove_request_removes W6state ["T6.zip", "other"] "P6"
    { state := QueryStates.AVAILABLE, last_query := some 1, title := "T6" } rfl
  exact ⟨rfl, h.1, h.2⟩

/-- C9: on startup, a missing backing schedule file yields an empty registry
table (columns `state`, `last_query`, `title`, keyed by `id`) instead of an
error, and an existing file is loaded wholesale. -/
theorem registry_startup_load (cfg : Config) :
    (initial_scheduler_state cfg none).schedule = [] ∧
    (∀ rows : Registry, (initial_scheduler_state cfg (some rows)).schedule = rows) :=
  ⟨rfl, fun _ => rfl⟩

/-- C10: constructing `RequestScheduler` is idempotent: a repeated
construction returns the identical singleton allocation and leaves the whole
class state — registry table, job mapping, configuration — unchanged, and
after a construction the singleton slot holds the returned instance with the
initialization flag set. -/
theorem scheduler_singleton_idempotent (c : ClassState) (cfg cfg2 : Config)
    (file file2 : Option Registry) :
    requestSchedulerConstruct (requestSchedulerConstruct c cfg file).2 cfg2 file2 =
      requestSchedulerConstruct c cfg file ∧
    (requestSchedulerConstruct c cfg file).2.instAlloc =
      some (requestSchedulerConstruct c cfg file).1 ∧
    (requestSchedulerConstruct c cfg file).2.initDone = true := by
  cases hi : c.instAlloc with
  | none =>
    simp [requestSchedulerConstruct, requestSchedulerNew, requestSchedulerInit, hi]
  | some a =>
    cases hd : c.initDone <;>
      simp [requestSchedulerConstruct, requestSchedulerNew, requestSchedulerInit, hi, hd]

/-- Witness for C9: a concrete configuration, with the missing-file case and a
one-row file. -/
theorem registry_startup_load_witness :
    (initial_scheduler_state
        { data_dir := "data", schedule_filepath := "persist/schedule.csv" } none).schedule = [] ∧
    (initial_scheduler_state
        { data_dir := "data", schedule_filepath := "persist/schedule.csv" }
        (some [("P9", { state := QueryStates.PENDING, last_query := some 4, title := "T9" })])).schedule =
      [("P9", { state := QueryStates.PENDING, last_query := some 4, title := "T9" })] :=
  ⟨(registry_startup_load
      { data_dir := "data", schedule_filepath := "persist/schedule.csv" }).1,
    (registry_startup_load
      { data_dir := "data", schedule_filepath := "persist/schedule.csv" }).2
      [("P9", { state := QueryStates.PENDING, last_query := some 4, title := "T9" })]⟩

/-- The class state before the very first `RequestScheduler()` call. -/
def W10class : ClassState :=
  { instAlloc := none, initDone := false, inst := none, next_alloc := 0 }

/-- Witness for C10: from the fresh class state, a second construction with a
different configuration and schedule file returns exactly the result of the
first one. -/
theorem scheduler_singleton_idempotent_witness :
    requestSchedulerConstruct
        (requestSchedulerConstruct W10class
          { data_dir := "data", schedule_filepath := "persist/schedule.csv" } none).2
        { data_dir := "elsewhere", schedule_filepath := "other/schedule.csv" } (some []) =
      requestSchedulerConstruct W10class
        { data_dir := "data", schedule_filepath := "persist/schedule.csv" } none :=
  (scheduler_singleton_idempotent W10class
    { data_dir := "data", schedule_filepath := "persist/schedule.csv" }
    { data_dir := "elsewhere", schedule_filepath := "other/schedule.csv" }
    none (some [])).1
